import Mathlib

/-!
Verification development for the commercial RFP data pipeline.

This file gives a shallow embedding, in Lean 4, of the core data-handling
functions of the pipeline (key derivation, deduplication, response
normalization, the document-library materializer, and the SharePoint mirror
synchronizer), translated from the Python sources, together with theorems
settling the specification claims about them.

Conventions used throughout:
* Python strings are Lean `String`s; missing / NaN cell values are `Option.none`.
* Byte strings are `List Nat` with every entry < 256.
* Pandas data frames are embedded as lists of typed rows (or as explicit
  column-name lists plus rows where column structure matters).
* Fallible Python code (raising) is embedded with `Except String`.
All definitions are executable, so concrete runs of the embedded code can be
evaluated inside theorems with `decide` / `rfl`.
-/

/-! ## Basic character and string helpers

The pipeline manipulates strings with Python operations (`str.strip`,
`str.lower`, slicing, `str.replace`, regular-expression substitution).  To keep
every definition kernel-reducible we implement these over `List Char` by
structural recursion instead of using the position-based `String` functions.
-/

/-- Python whitespace class (the characters matched by the regex class used in
the sources): space, tab, newline, carriage return, form feed, vertical tab. -/
def pySpace (c : Char) : Bool :=
  c = ' ' || c = '\t' || c = '\n' || c = '\r' || c = '\x0c' || c = '\x0b'

/-- Python `str.strip()`: remove leading and trailing whitespace. -/
def pyStrip (s : String) : String :=
  ⟨((s.data.dropWhile pySpace).reverse.dropWhile pySpace).reverse⟩

/-- Python `str.lower()` (ASCII case folding, which covers every string the
pipeline lowercases). -/
def pyLower (s : String) : String :=
  ⟨s.data.map Char.toLower⟩

/-- Python slicing `s[:n]` (by code point, as in Python). -/
def pyTake (s : String) (n : Nat) : String :=
  ⟨s.data.take n⟩

/-- Removal of every whitespace character of a string: the effect denoted by
substituting the whitespace-run regex with the empty string. -/
def removeAllWhitespace (s : String) : String :=
  ⟨s.data.filter (fun c => !pySpace c)⟩

/-- Prefix test on strings (Python `str.startswith`). -/
def pyStartsWith (s p : String) : Bool :=
  p.data.isPrefixOf s.data

/-- Suffix test on strings (Python `str.endswith`). -/
def pyEndsWith (s p : String) : Bool :=
  p.data.reverse.isPrefixOf s.data.reverse

/-- One step of Python `str.replace`: `replaceAllCore fuel pat repl s` scans
`s` left to right, replacing each non-overlapping occurrence of the non-empty
pattern `pat` by `repl`.  Structural recursion on `fuel` (instantiated with the
length of `s`, which bounds the number of scan steps) keeps the definition
kernel-reducible. -/
def replaceAllCore (pat repl : List Char) : Nat → List Char → List Char
  | 0, s => s
  | _ + 1, [] => []
  | fuel + 1, c :: cs =>
    if pat.isPrefixOf (c :: cs) then
      repl ++ replaceAllCore pat repl fuel ((c :: cs).drop pat.length)
    else
      c :: replaceAllCore pat repl fuel cs

/-- Python `s.replace(pat, repl)` for a non-empty `pat` (every use in the
sources has a non-empty literal pattern; an empty pattern returns `s`). -/
def pyReplace (s pat repl : String) : String :=
  if pat.data.isEmpty then s
  else ⟨replaceAllCore pat.data repl.data s.data.length s.data⟩

/-! ## UTF-8 encoding

Python hashes `snippet.encode("utf-8")`; we encode Lean strings to byte lists
by the UTF-8 rules (Lean `Char`s are unicode scalar values, so the four-case
encoder below is total and exact). -/

/-- UTF-8 encoding of one unicode scalar value. -/
def utf8Char (c : Char) : List Nat :=
  let n := c.toNat
  if n < 128 then [n]
  else if n < 2048 then [192 + n / 64, 128 + n % 64]
  else if n < 65536 then [224 + n / 4096, 128 + (n / 64) % 64, 128 + n % 64]
  else [240 + n / 262144, 128 + (n / 4096) % 64, 128 + (n / 64) % 64, 128 + n % 64]

/-- UTF-8 encoding of a string as a byte list (Python `s.encode("utf-8")`). -/
def utf8Bytes (s : String) : List Nat :=
  s.data.flatMap utf8Char

/-! ## MD5

The pipeline derives content keys with `hashlib.md5`.  We implement MD5
(RFC 1321) executably over `List Nat` bytes, with 32-bit words as `Nat`
reduced mod `2 ^ 32`, so concrete digests can be computed by the kernel. -/

/-- Modulus for 32-bit words. -/
def m32 : Nat := 4294967296

/-- Left rotation of a 32-bit word. -/
def rotl32 (x s : Nat) : Nat :=
  (((x <<< s)) % m32) ||| (x >>> (32 - s))

/-- Bitwise complement of a 32-bit word. -/
def not32 (x : Nat) : Nat := x ^^^ 4294967295

/-- The 64 MD5 sine-derived constants, `floor (abs (sin (i+1)) * 2 ^ 32)`. -/
def md5K : List Nat :=
  [3614090360, 3905402710, 606105819, 3250441966, 4118548399, 1200080426,
   2821735955, 4249261313, 1770035416, 2336552879, 4294925233, 2304563134,
   1804603682, 4254626195, 2792965006, 1236535329, 4129170786, 3225465664,
   643717713, 3921069994, 3593408605, 38016083, 3634488961, 3889429448,
   568446438, 3275163606, 4107603335, 1163531501, 2850285829, 4243563512,
   1735328473, 2368359562, 4294588738, 2272392833, 1839030562, 4259657740,
   2763975236, 1272893353, 4139469664, 3200236656, 681279174, 3936430074,
   3572445317, 76029189, 3654602809, 3873151461, 530742520, 3299628645,
   4096336452, 1126891415, 2878612391, 4237533241, 1700485571, 2399980690,
   4293915773, 2240044497, 1873313359, 4264355552, 2734768916, 1309151649,
   4149444226, 3174756917, 718787259, 3951481745]

/-- The MD5 per-round left-rotation amounts. -/
def md5S : List Nat :=
  [7, 12, 17, 22, 7, 12, 17, 22, 7, 12, 17, 22, 7, 12, 17, 22,
   5, 9, 14, 20, 5, 9, 14, 20, 5, 9, 14, 20, 5, 9, 14, 20,
   4, 11, 16, 23, 4, 11, 16, 23, 4, 11, 16, 23, 4, 11, 16, 23,
   6, 10, 15, 21, 6, 10, 15, 21, 6, 10, 15, 21, 6, 10, 15, 21]

/-- MD5 round function: which mix of `b`, `c`, `d` round `i` uses. -/
def md5F (i b c d : Nat) : Nat :=
  if i < 16 then (b &&& c) ||| (not32 b &&& d)
  else if i < 32 then (d &&& b) ||| (not32 d &&& c)
  else if i < 48 then b ^^^ c ^^^ d
  else c ^^^ (b ||| not32 d)

/-- MD5 message-word index for round `i`. -/
def md5G (i : Nat) : Nat :=
  if i < 16 then i
  else if i < 32 then (5 * i + 1) % 16
  else if i < 48 then (3 * i + 5) % 16
  else (7 * i) % 16

/-- Little-endian 32-bit word `j` of a 64-byte chunk. -/
def leWord (chunk : List Nat) (j : Nat) : Nat :=
  chunk.getD (4 * j) 0 + 256 * chunk.getD (4 * j + 1) 0 +
    65536 * chunk.getD (4 * j + 2) 0 + 16777216 * chunk.getD (4 * j + 3) 0

/-- One MD5 round step on the running state `(a, b, c, d)`. -/
def md5Step (chunk : List Nat) (st : Nat × Nat × Nat × Nat) (i : Nat) :
    Nat × Nat × Nat × Nat :=
  let (a, b, c, d) := st
  let f := (md5F i b c d + a + md5K.getD i 0 + leWord chunk (md5G i)) % m32
  (d, (b + rotl32 f (md5S.getD i 0)) % m32, b, c)

/-- Process one 64-byte chunk, updating the four 32-bit state words. -/
def md5Chunk (st : Nat × Nat × Nat × Nat) (chunk : List Nat) :
    Nat × Nat × Nat × Nat :=
  let (a0, b0, c0, d0) := st
  let (a, b, c, d) := (List.range 64).foldl (md5Step chunk) (a0, b0, c0, d0)
  ((a0 + a) % m32, (b0 + b) % m32, (c0 + c) % m32, (d0 + d) % m32)

/-- Little-endian bytes of `n`, `k` bytes long. -/
def leBytes (k n : Nat) : List Nat :=
  (List.range k).map (fun i => (n >>> (8 * i)) % 256)

/-- MD5 padding: append `0x80`, zero bytes to 56 mod 64, then the bit length
as a 64-bit little-endian quantity. -/
def md5Pad (msg : List Nat) : List Nat :=
  let len := msg.length
  let zeros := (119 - len % 64) % 64
  msg ++ [128] ++ List.replicate zeros 0 ++ leBytes 8 ((len * 8) % 18446744073709551616)

/-- Split a byte list into 64-byte chunks (fuel-driven structural recursion;
the fuel is instantiated with the list length). -/
def toChunks : Nat → List Nat → List (List Nat)
  | 0, _ => []
  | _ + 1, [] => []
  | fuel + 1, l => l.take 64 :: toChunks fuel (l.drop 64)

/-- Lowercase hex digit. -/
def hexDigit (n : Nat) : Char :=
  if n < 10 then Char.ofNat (48 + n) else Char.ofNat (87 + n)

/-- Two lowercase hex digits of a byte. -/
def hexByte (n : Nat) : List Char :=
  [hexDigit (n / 16), hexDigit (n % 16)]

/-- Lowercase hex rendering of a byte list. -/
def hexOfBytes (bs : List Nat) : String :=
  ⟨bs.flatMap hexByte⟩

/-- MD5 digest of a byte list, rendered as the usual 32-character lowercase
hex string (Python `hashlib.md5(data).hexdigest()`). -/
def md5Hex (msg : List Nat) : String :=
  let padded := md5Pad msg
  let (a, b, c, d) :=
    (toChunks padded.length padded).foldl md5Chunk
      (1732584193, 4023233417, 2562383102, 271733878)
  hexOfBytes (leBytes 4 a ++ leBytes 4 b ++ leBytes 4 c ++ leBytes 4 d)

/-! ## Records and key derivation

Embeds `DataIngestion._key_from_hash` and `DataIngestion._add_rfp_keys`
(src/1/commercial_rfp_raw_data_ingestion_and_cleaning.py, lines 32-73).

A `Record` is one cleaned survey row; the key-deriving code reads the columns
`client name`, `date`, `rfp type`, `consultant`, `question` (and the claims
also concern `response`), all strings at this point of the pipeline. -/

structure Record where
  clientName : String
  rfpType : String
  consultant : String
  date : String
  question : String
  response : String
deriving DecidableEq, Repr

/-- Embeds the row-level `build_key` closure of `_add_rfp_keys`:
the underscore-joined, individually stripped values of
`client name`, `date`, `rfp type`, `consultant`, `question`
(the `response` column is not read). -/
def build_key (r : Record) : String :=
  pyStrip r.clientName ++ "_" ++ pyStrip r.date ++ "_" ++ pyStrip r.rfpType ++
    "_" ++ pyStrip r.consultant ++ "_" ++ pyStrip r.question

/-- Embeds `DataIngestion._key_from_hash(text, algo)`: take the first 120
characters of `text` (empty for `None`), UTF-8 encode, and dispatch on the
requested algorithm; unrecognized algorithms raise `ValueError`.  Only the MD5
branch is ever exercised by the pipeline, so the SHA-1 / SHA-256 digest
functions are parameters of the embedding rather than implementations. -/
def key_from_hash (sha1H sha256H : List Nat → String) (text : Option String)
    (algo : String) : Except String String :=
  let snippet := pyTake (text.getD "") 120
  let data := utf8Bytes snippet
  if algo = "md5" then .ok ("RFP_Content_" ++ md5Hex data)
  else if algo = "sha1" then .ok ("RFP_Content_" ++ sha1H data)
  else if algo = "sha256" then .ok ("RFP_Content_" ++ sha256H data)
  else .error ("Unsupported hash algorithm: " ++ algo)

/-- The per-record hash value the `key_hash` assignment of `_add_rfp_keys`
computes: `_key_from_hash` with the default `"md5"` algorithm, applied to the
whitespace-stripped `key` column.  (See `key_from_hash_md5` for the
correspondence with `key_from_hash`.) -/
def record_key_hash (r : Record) : String :=
  "RFP_Content_" ++ md5Hex (utf8Bytes (pyTake (removeAllWhitespace (build_key r)) 120))

/-- A pandas `Series.str.replace` count argument as supplied at a call site:
either an integer (the documented type, default `-1`) or — as in the source
line `df["key"].str.replace(regexWs, "", "", regex=True)` — a string passed
positionally by mistake. -/
inductive PdCount where
  | int (n : Int)
  | str (s : String)
deriving DecidableEq, Repr

/-- Pandas normalizes the count argument with the comparison `n >= 0` before
processing any element; comparing a string against `0` raises `TypeError`, so
a string count aborts the whole `str.replace` call. -/
def pdCountNormalize : PdCount → Except String Nat
  | .int n => .ok (if 0 ≤ n then n.toNat else 0)
  | .str _ => .error "TypeError: not supported between instances of str and int"

/-- A record together with its derived `key` and `key_hash` columns. -/
structure KeyedRecord where
  base : Record
  key : String
  key_hash : String
deriving DecidableEq, Repr

/-- Embeds `DataIngestion._add_rfp_keys`: build the `key` column with
`build_key`, then derive `key_hash` by removing all whitespace from `key`
(the call `.str.replace(regexWs, "", "", regex=True)`, whose third positional
argument is the string `""` in the source) and hashing the first 120
characters with MD5.  The date re-normalization the function performs first is
the identity on the `YYYY-MM-DD` strings the cleaning stage produces. -/
def add_rfp_keys (rs : List Record) : Except String (List KeyedRecord) :=
  match pdCountNormalize (.str "") with
  | .error e => .error e
  | .ok _ => .ok (rs.map (fun r => ⟨r, build_key r, record_key_hash r⟩))

/-- Modelled from the spec (§4.2), for comparison with the code: the hash
input the specification prescribes — the full, untruncated field values
`client|date|rfp_type|consultant|question|response`, pipe-joined, whitespace
preserved. -/
def spec_hash_input (r : Record) : String :=
  r.clientName ++ "|" ++ r.date ++ "|" ++ r.rfpType ++ "|" ++ r.consultant ++
    "|" ++ r.question ++ "|" ++ r.response

/-- Modelled from the spec (§4.2), for comparison with the code: the
`key_hash` value the specification prescribes. -/
def spec_key_hash (r : Record) : String :=
  "RFP_Content_" ++ md5Hex (utf8Bytes (spec_hash_input r))

/-! ## Deduplicator step 2: same-question conflict resolution

Embeds `DataIngestion.same_question_duplicate_response`
(src/commercial_rfp_raw_data_ingestion_and_cleaning.py, lines 263-274).
Rows are embedded with the columns the function reads (`question`, `date`)
plus `response` so that rows of one question group are distinguishable; dates
are embedded as `Nat` (e.g. `20240101`), matching the total order pandas uses.
The `df is None` guard at the top of the function models a caller-ordering
error and is outside the data behavior embedded here. -/

structure DupRow where
  question : String
  response : String
  date : Nat
deriving DecidableEq, Repr

/-- The rows marked by `df.duplicated("question", keep=False)`: those whose
`question` occurs in at least two rows of the frame. -/
def dupMarked (df : List DupRow) : List DupRow :=
  df.filter (fun r => 2 ≤ df.countP (fun q => q.question == r.question))

/-- The distinct questions of the duplicated rows, in first-occurrence order
(the index of `duplicates.groupby("question")`). -/
def dupQuestions (df : List DupRow) : List String :=
  ((dupMarked df).map (fun r => r.question)).dedup

/-- Maximum `date` over the duplicated rows with the given question. -/
def maxDateFor (df : List DupRow) (q : String) : Nat :=
  (((dupMarked df).filter (fun r => r.question == q)).map (fun r => r.date)).foldl
    Nat.max 0

/-- The column `max_dates["date"]`: the set of per-question maximum dates,
one entry per duplicated question. -/
def maxDateValues (df : List DupRow) : List Nat :=
  (dupQuestions df).map (maxDateFor df)

/-- Lexicographic order on character lists by code point (the order pandas
uses on the strings this pipeline sorts, which are ASCII). -/
def charListLe : List Char → List Char → Bool
  | [], _ => true
  | _ :: _, [] => false
  | a :: as, b :: bs =>
    if a.toNat < b.toNat then true
    else if b.toNat < a.toNat then false
    else charListLe as bs

/-- Lexicographic string order by code point. -/
def strLe (a b : String) : Bool :=
  charListLe a.data b.data

/-- Insertion step of a stable sort of rows by `(date, question)`. -/
def insertByDateQuestion (r : DupRow) : List DupRow → List DupRow
  | [] => [r]
  | x :: xs =>
    if r.date < x.date || (r.date == x.date && strLe r.question x.question) then
      r :: x :: xs
    else
      x :: insertByDateQuestion r xs

/-- The final `sort_values(by=["date", "question"])` of the function (tie
order among equal keys does not matter to any claim). -/
def sortByDateQuestion (df : List DupRow) : List DupRow :=
  df.foldr insertByDateQuestion []

/-- Embeds `DataIngestion.same_question_duplicate_response`: when duplicated
questions exist, keep the rows whose `date` lies in the set of per-question
maximum dates — a set pooled across all duplicated questions — or whose
`question` is not duplicated; then sort by `(date, question)`. -/
def same_question_duplicate_response (df : List DupRow) : List DupRow :=
  let kept :=
    if (dupMarked df).isEmpty then df
    else
      df.filter (fun r =>
        (maxDateValues df).contains r.date ||
          !(dupQuestions df).contains r.question)
  sortByDateQuestion kept

/-! ## Confirmation-phrase normalization

Embeds the `response` rewrite of `DataIngestion.commercial_rfp_data_cleaning`
(src/commercial_rfp_raw_data_ingestion_and_cleaning.py, lines 319-323): a
case-insensitive `re.sub` of the alternation
`CONFIRMED | CONFIRMED. | Confirmed via BlueInsights. | Confirmed via mail. |
Confirmed. | Yes.\s*Confirmed.` with the replacement `Confirmed`.  Python
regular expressions try the alternatives in the listed order at each scan
position and take the first that matches (no longest-match rule), scanning
left to right with non-overlapping matches. -/

/-- Case-insensitive literal match: if the pattern matches a prefix of the
input, return the rest of the input. -/
def ciMatch : List Char → List Char → Option (List Char)
  | [], s => some s
  | _ :: _, [] => none
  | p :: ps, c :: cs => if p.toLower == c.toLower then ciMatch ps cs else none

/-- Match the final alternative `Yes.\s*Confirmed.` (case-insensitive): the
literal `Yes.`, any run of whitespace, then the literal `Confirmed.`. -/
def matchYesConfirmed (s : List Char) : Option (List Char) :=
  match ciMatch "Yes.".data s with
  | none => none
  | some rest => ciMatch "Confirmed.".data (rest.dropWhile pySpace)

/-- Try the six alternatives of the confirmation pattern, in the order they
appear in the source regex, at the current position. -/
def tryConfirmAlts (s : List Char) : Option (List Char) :=
  match ciMatch "CONFIRMED".data s with
  | some rest => some rest
  | none =>
  match ciMatch "CONFIRMED.".data s with
  | some rest => some rest
  | none =>
  match ciMatch "Confirmed via BlueInsights.".data s with
  | some rest => some rest
  | none =>
  match ciMatch "Confirmed via mail.".data s with
  | some rest => some rest
  | none =>
  match ciMatch "Confirmed.".data s with
  | some rest => some rest
  | none => matchYesConfirmed s

/-- The scan of `re.sub`: at each position try the alternation; on a match,
emit `Confirmed` and continue after the matched text, otherwise emit the
character and advance.  Fuel-driven structural recursion (every alternative
consumes at least one character, so the input length bounds the steps). -/
def confirmSubCore : Nat → List Char → List Char
  | 0, s => s
  | _ + 1, [] => []
  | fuel + 1, c :: cs =>
    match tryConfirmAlts (c :: cs) with
    | some rest => "Confirmed".data ++ confirmSubCore fuel rest
    | none => c :: confirmSubCore fuel cs

/-- Embeds the `response` confirmation rewrite: `re.sub` of the source
alternation, case-insensitive, replacement `Confirmed`. -/
def normalize_confirmation (s : String) : String :=
  ⟨confirmSubCore s.data.length s.data⟩

/-! ## Record-normalizer response-column resolution

Embeds the response-column logic of `DataIngestion.clean_data`
(src/1/commercial_rfp_raw_data_ingestion_and_cleaning.py, lines 151-164):
column names are stripped and lowercased; a `response` column is used if
present, else a `fixed answer` column is renamed to `response`; rows whose
response is null or blank are dropped; when neither column exists the
function logs an error and returns an empty `DataFrame`.  (The remaining
lines of `clean_data` — date coercion and text stripping — do not touch
column presence and are not needed by the claims.)  A raw table is a column
list plus rows of cells aligned with it; `none` is a null cell. -/

structure RawTable where
  cols : List String
  rows : List (List (Option String))
deriving DecidableEq, Repr

/-- Cell of a row under a column name (first matching column). -/
def cellOf (cols : List String) (row : List (Option String)) (c : String) :
    Option String :=
  match cols.indexOf? c with
  | none => none
  | some i => (row.getD i none).bind (fun v => some v)

/-- Keep the rows whose `response` cell is neither null nor blank after
stripping (`~isna` and `astype(str).str.strip() != ""`). -/
def dropBlankResponses (t : RawTable) : RawTable :=
  ⟨t.cols,
   t.rows.filter (fun row =>
     match cellOf t.cols row "response" with
     | none => false
     | some v => pyStrip v ≠ "")⟩

/-- Embeds the response-column resolution of `clean_data`: strip+lower the
column names; use `response` if present, else rename `fixed answer` to
`response`; filter blank responses; with neither column, return the empty
`DataFrame` (no error is raised). -/
def clean_data_response_resolution (t : RawTable) : RawTable :=
  let cols := t.cols.map (fun c => pyLower (pyStrip c))
  if cols.contains "response" then
    dropBlankResponses ⟨cols, t.rows⟩
  else if cols.contains "fixed answer" then
    let renamed := cols.map (fun c => if c = "fixed answer" then "response" else c)
    dropBlankResponses ⟨renamed, t.rows⟩
  else
    ⟨[], []⟩

/-- Modelled from the spec (§4.1), for comparison with the code: the
normalizer is required to fail with `SchemaError` when neither a `response`
nor a `fixed answer` column exists. -/
def spec_response_resolution (t : RawTable) : Except String RawTable :=
  let cols := t.cols.map (fun c => pyLower (pyStrip c))
  if cols.contains "response" then
    .ok (dropBlankResponses ⟨cols, t.rows⟩)
  else if cols.contains "fixed answer" then
    let renamed := cols.map (fun c => if c = "fixed answer" then "response" else c)
    .ok (dropBlankResponses ⟨renamed, t.rows⟩)
  else
    .error "SchemaError: no response-equivalent column"

/-! ## Mirror synchronizer

Embeds `CitationMapper.upload_docx_files_to_SharePoint_and_create_citation_map`
and `CitationMapper.delete_sharepoint_files_not_in_blob`
(src/1/commercial_rfp_content_citation_upload_mapping_creation.py,
lines 76-285).  The external folder is a listing of SharePoint items (name,
id, webUrl); the document store is the list of blob names.  The worker pools
only parallelize the per-item calls within the upload step and within the
delete step; the steps themselves are sequential, so the run is embedded as a
sequential function.  Per-item calls are modeled as succeeding (the setting of
the synchronization claims); the platform-assigned id and webUrl of an
uploaded file are parameters `mkId`, `mkUrl`. -/

structure SPItem where
  id : String
  name : String
  webUrl : String
deriving DecidableEq, Repr

/-- Managed-extension test: `name.lower().endswith(".docx")`. -/
def isDocx (s : String) : Bool :=
  pyEndsWith (pyLower s) ".docx"

/-- Names present in a SharePoint listing (`existing_names`, skipping items
with a falsy name). -/
def existingNames (items : List SPItem) : List String :=
  (items.filter (fun it => it.name != "")).map (fun it => it.name)

/-- The `.docx` blob names (`blob_docx_names`, source of truth for deletes). -/
def blobDocxNames (blobs : List String) : List String :=
  blobs.filter isDocx

/-- Step 3 of the upload pass: the new `.docx` blob names, i.e. those not
already present in the pre-upload listing. -/
def newBlobNames (blobs : List String) (items : List SPItem) : List String :=
  blobs.filter (fun b => isDocx b && !(existingNames items).contains b)

/-- An item is an orphan when its name is truthy, has the managed extension,
and matches no blob (the `to_delete` membership test). -/
def isOrphan (blobs : List String) (it : SPItem) : Bool :=
  it.name != "" && isDocx it.name && !(blobDocxNames blobs).contains it.name

/-- An orphan is actually deleted only when its id is truthy (items with a
missing id are skipped with a warning). -/
def isDeleted (blobs : List String) (it : SPItem) : Bool :=
  isOrphan blobs it && it.id != ""

/-- The mapping rows built from a listing: `(file_name, preview_url)` for
each item with a truthy `.docx` name and a truthy url. -/
def mappingRows (items : List SPItem) : List (String × String) :=
  items.filterMap (fun it =>
    if it.name != "" && isDocx it.name && it.webUrl != "" then
      some (it.name, it.webUrl)
    else none)

/-- Pandas `drop_duplicates(subset=["file_name"], keep="last")`: keep each
row whose `file_name` does not occur again later, preserving order. -/
def keepLast : List (String × String) → List (String × String)
  | [] => []
  | r :: rest =>
    if rest.any (fun q => q.1 == r.1) then keepLast rest else r :: keepLast rest

/-- Insertion step of a sort of strings (for the duplicate-name examples,
which pandas reports sorted by `file_name`). -/
def insertStr (s : String) : List String → List String
  | [] => [s]
  | t :: ts => if strLe s t then s :: t :: ts else t :: insertStr s ts

/-- Sort a list of strings. -/
def sortStrs (l : List String) : List String :=
  l.foldr insertStr []

/-- The duplicated `file_name` values of the mapping rows (the names marked
by `duplicated(keep=False)`), distinct and sorted. -/
def duplicatedNames (rows : List (String × String)) : List String :=
  (sortStrs ((rows.map Prod.fst).filter
    (fun n => 2 ≤ (rows.map Prod.fst).count n))).dedup

/-- The duplicate warning: `some` of up to 10 example names when any
`file_name` occurs more than once, else `none` (no warning logged). -/
def dupWarningOf (rows : List (String × String)) : Option (List String) :=
  if (duplicatedNames rows).isEmpty then none
  else some ((duplicatedNames rows).take 10)

/-- Step 5-7 of the run: build the mapping from a listing, log the duplicate
warning if needed, deduplicate keeping the last-observed entry.  The write to
the blob container is unconditional, so the mapping is published even when
empty. -/
def publishMapping (items : List SPItem) :
    List (String × String) × Option (List String) :=
  (keepLast (mappingRows items), dupWarningOf (mappingRows items))

/-- Everything one synchronizer run produces. -/
structure SyncResult where
  uploads : List String
  deletions : List SPItem
  final : List SPItem
  mapping : List (String × String)
  dupWarning : Option (List String)
deriving DecidableEq, Repr

/-- The listing after the upload step: the original items plus one created
item per new blob name. -/
def afterUploadItems (mkId mkUrl : String → String) (blobs : List String)
    (items : List SPItem) : List SPItem :=
  items ++ (newBlobNames blobs items).map (fun n => ⟨mkId n, n, mkUrl n⟩)

/-- The listing after the delete step: the post-upload items that are not
deleted as orphans. -/
def afterDeleteItems (mkId mkUrl : String → String) (blobs : List String)
    (items : List SPItem) : List SPItem :=
  (afterUploadItems mkId mkUrl blobs items).filter (fun it => !isDeleted blobs it)

/-- One full synchronizer run: list the folder, upload the new `.docx` blobs
(each upload creating an item with the platform-assigned id and url), delete
the orphaned `.docx` items (skipping items with a missing id), re-list, and
publish the mapping built from the re-discovered listing. -/
def runSync (mkId mkUrl : String → String) (blobs : List String)
    (items : List SPItem) : SyncResult :=
  ⟨newBlobNames blobs items,
   (afterUploadItems mkId mkUrl blobs items).filter (isDeleted blobs),
   afterDeleteItems mkId mkUrl blobs items,
   (publishMapping (afterDeleteItems mkId mkUrl blobs items)).1,
   (publishMapping (afterDeleteItems mkId mkUrl blobs items)).2⟩

/-! ## Per-record document materializer

Embeds `commerercial_rfp_content_doc_library_creation` and
`create_docx_content` (src/commercial_rfp_content_doc_library_creation.py).
A document is embedded as its list of paragraph texts; a materializer row is
an association list from column names to cells (`none` = NaN/absent, which is
also what `row.get` yields for a missing key). -/

/-- A row of the canonical dataset as read back from the Excel file. -/
abbrev MatRow : Type := List (String × Option String)

/-- Python `row.get(key, None)`: the first cell under the key, flattened. -/
def rowGet (row : MatRow) (key : String) : Option String :=
  match row.find? (fun kv => kv.1 == key) with
  | none => none
  | some kv => kv.2

/-- Python `str.title()` for the response-column label (uppercase a letter
that follows a non-letter, lowercase the rest). -/
def pyTitle (s : String) : String :=
  ⟨(s.data.foldl
      (fun (acc : List Char × Bool) c =>
        (acc.1 ++ [if acc.2 then c.toUpper else c.toLower], !c.isAlpha))
      ([], true)).1⟩

/-- The labeled fields of `create_docx_content`, in source order; the response
column keeps its own title-cased name as the label. -/
def docFields (responseCol : String) : List (String × String) :=
  [("Client Name", "client name"), ("RFP Type", "rfp type"),
   ("Consultant", "consultant"), ("Date", "date"), ("Question", "question"),
   (pyTitle responseCol, responseCol), ("SME", "sme")]

/-- Embeds `create_docx_content`: one paragraph `Source File Name: ...`, then
one `label: value` paragraph per field whose cell is present (`pd.notna`) and
non-empty. -/
def create_docx_content (mainFileName : String) (row : MatRow)
    (responseCol : String) : List String :=
  (docFields responseCol).foldl
    (fun acc lk =>
      match rowGet row lk.2 with
      | some v => if v ≠ "" then acc ++ [lk.1 ++ ": " ++ v] else acc
      | none => acc)
    ["Source File Name: " ++ mainFileName]

/-- The file name of one materialized document: the value of the frame's
first column interpolated into `RFP_Content_Library_..docx` (the float
normalization of the source only affects numeric cells, which are strings
here). -/
def docxFileNameOf (refVal : String) : String :=
  "RFP_Content_Library_" ++ refVal ++ ".docx"

/-- The canonical dataset as the materializer sees it. -/
structure MatTable where
  cols : List String
  rows : List MatRow
deriving Repr

/-- The response-column detection of the materializer main loop: `response`
first, then `fixed answer`. -/
def detectResponseCol (cols : List String) : Option String :=
  if cols.contains "response" then some "response"
  else if cols.contains "fixed answer" then some "fixed answer"
  else none

/-- Embeds the row loop of `commerercial_rfp_content_doc_library_creation`:
for each row whose first-column value is present and non-blank, produce the
document `(file name, paragraphs)`.  When no response-equivalent column
exists the loop raises (`response_col` stays `None`). -/
def materializeDocs (latestBlobName : String) (t : MatTable) :
    Except String (List (String × List String)) :=
  match detectResponseCol t.cols with
  | none => .error "AttributeError: NoneType has no attribute title"
  | some rcol =>
    .ok (t.rows.filterMap (fun row =>
      match rowGet row (t.cols.getD 0 "") with
      | none => none
      | some refVal =>
        if pyStrip refVal = "" then none
        else some (docxFileNameOf refVal,
                   create_docx_content latestBlobName row rcol)))

/-! ## Document-library run: wipe, read, create

Embeds the control flow of `commerercial_rfp_content_doc_library_creation`
(src/commercial_rfp_content_doc_library_creation.py, lines 108-164) acting on
the output container: the latest `RFP_content_library_{YYYYMMDD}.xlsx` blob
is looked up (with only a log line — no early return — when none exists),
then `delete_all_blobs_in_container` wipes the output container, then the
Excel is read (raising when the lookup produced `None`) and each row's
document is uploaded. -/

/-- Validity of an 8-digit `YYYYMMDD` date string, as `strptime` accepts it
for the names this pipeline writes; returns the comparable `Nat` value. -/
def parseYmd8 (s : String) : Option Nat :=
  let cs := s.data
  if cs.length = 8 && cs.all Char.isDigit then
    let num := cs.foldl (fun acc c => 10 * acc + (c.toNat - 48)) 0
    let y := num / 10000
    let m := num / 100 % 100
    let d := num % 100
    let leap := y % 4 = 0 && (y % 100 ≠ 0 || y % 400 = 0)
    let dim : List Nat :=
      [31, if leap then 29 else 28, 31, 30, 31, 30, 31, 31, 30, 31, 30, 31]
    if 1 ≤ m && m ≤ 12 && 1 ≤ d && d ≤ dim.getD (m - 1) 0 then some num
    else none
  else none

/-- Embeds `get_latest_rfp_content_library_blob`: keep the names of the form
`RFP_content_library_{date}.xlsx` whose date part parses, and return the one
with the greatest date (the first of equals, as Python `max`). -/
def get_latest_rfp_content_library_blob (names : List String) : Option String :=
  let files := names.filterMap (fun n =>
    if pyStartsWith n "RFP_content_library_" && pyEndsWith n ".xlsx" then
      (parseYmd8 (pyReplace (pyReplace n "RFP_content_library_" "") ".xlsx" "")).map
        (fun d => (n, d))
    else none)
  (files.foldl
    (fun acc nd =>
      match acc with
      | none => some nd
      | some best => if nd.2 > best.2 then some nd else some best)
    none).map Prod.fst

/-- The operations a document-library run performs on the output container. -/
inductive DocOp where
  | deleteAll
  | create (name : String)
  | abort
deriving DecidableEq, Repr

/-- The operation trace of one run: the wipe always comes first; when the
lookup found no valid library file the subsequent read of `None` raises
(`abort`), and a missing response column aborts the row loop before any
create; otherwise one create per materialized document. -/
def docLibTrace (inNames : List String) (t : MatTable) : List DocOp :=
  match get_latest_rfp_content_library_blob inNames with
  | none => [.deleteAll, .abort]
  | some latest =>
    match materializeDocs latest t with
    | .error _ => [.deleteAll, .abort]
    | .ok docs => .deleteAll :: docs.map (fun d => .create d.1)

/-- Apply a run's operations to the output container's blob-name state. -/
def applyDocOps (ops : List DocOp) (store : List String) : List String :=
  ops.foldl
    (fun st op =>
      match op with
      | .deleteAll => []
      | .create n => st ++ [n]
      | .abort => st)
    store

/-- The output container after one run over the previous contents. -/
def docLibFinal (inNames : List String) (t : MatTable) (oldStore : List String) :
    List String :=
  applyDocOps (docLibTrace inNames t) oldStore

/-! ## Concrete fixtures

Concrete inputs used by the counterexamples and witnesses below. -/

/-- Fixture: one cleaned record with interior whitespace in several fields and
a non-empty response. -/
def rC1 : Record :=
  ⟨"Acme Corp", "Annual RFP", "Jane Doe", "2024-03-01", "What is uptime?",
   "99.9% guaranteed uptime."⟩

/-- Fixture: a record for the key-hash response test. -/
def rC3a : Record :=
  ⟨"Globex", "Security RFP", "Bob Lee", "2023-11-20",
   "Is data encrypted at rest?", "Yes."⟩

/-- Fixture: identical to `rC3a` except for `response`. -/
def rC3b : Record :=
  ⟨"Globex", "Security RFP", "Bob Lee", "2023-11-20",
   "Is data encrypted at rest?", "No, it is not."⟩

/-- Fixture: two question groups; the old date of group `a` coincides with
the maximum date of group `b`. -/
def dfC2 : List DupRow :=
  [⟨"a", "x", 20230101⟩, ⟨"a", "y", 20240101⟩,
   ⟨"b", "u", 20230101⟩, ⟨"b", "v", 20230101⟩]

/-- Fixture: the two-row example of the specification (one question, dates
2023-01-01 and 2024-01-01, different responses). -/
def dfSpecPair : List DupRow :=
  [⟨"q", "r1", 20230101⟩, ⟨"q", "r2", 20240101⟩]

/-- Fixture: a table with neither a `response` nor a `fixed answer` column. -/
def tC8 : RawTable :=
  ⟨["Question", "Date"], [[some "q1", some "2024-01-01"]]⟩

/-- Fixture: a canonical-dataset table with one row, whose first column is
`client name` and whose last column carries the row's `key_hash`. -/
def tC5 : MatTable :=
  ⟨["client name", "rfp type", "consultant", "date", "question", "response",
    "key", "key_hash"],
   [[("client name", some "Acme"), ("rfp type", some "Annual"),
     ("consultant", some "Jane"), ("date", some "2024-03-01"),
     ("question", some "Q?"), ("response", some "R."), ("key", some "k"),
     ("key_hash", some "RFP_Content_x")]]⟩

/-- Fixture: the record of the single row of `tC5`. -/
def recC5 : Record :=
  ⟨"Acme", "Annual", "Jane", "2024-03-01", "Q?", "R."⟩

/-- Fixture: document-store names for the convergence example. -/
def blobsC4 : List String := ["A.docx", "B.docx", "C.docx"]

/-- Fixture: external-folder listing for the convergence example. -/
def itemsC4 : List SPItem :=
  [⟨"i1", "B.docx", "uB"⟩, ⟨"i2", "C.docx", "uC"⟩, ⟨"i3", "D.docx", "uD"⟩]

/-- Fixture: a post-synchronization listing with a duplicated name. -/
def itemsC9 : List SPItem :=
  [⟨"1", "x.docx", "u1"⟩, ⟨"2", "x.docx", "u2"⟩, ⟨"3", "y.docx", "u3"⟩]

/-- Fixture: an input container with no valid library file (the second name
matches the prefix and suffix but its date part is not a valid date). -/
def inNamesC10 : List String := ["notes.txt", "RFP_content_library_2024.xlsx"]

/-- Fixture: an empty canonical table for the document-library run. -/
def tC10 : MatTable := ⟨["question"], []⟩

/-! ## Implementation test vectors

Known-answer checks anchoring the MD5 implementation to the published test
vectors of RFC 1321 (and one two-chunk input). -/

set_option maxRecDepth 8000

/-- MD5 test vector: digest of the empty message. -/
theorem md5Hex_empty_vector :
    md5Hex (utf8Bytes "") = "d41d8cd98f00b204e9800998ecf8427e" := by decide

/-- MD5 test vector: digest of `abc`. -/
theorem md5Hex_abc_vector :
    md5Hex (utf8Bytes "abc") = "900150983cd24fb0d6963f7d28e17f72" := by decide

/-- MD5 test vector exercising the two-chunk path (89-byte input). -/
theorem md5Hex_two_chunk_vector :
    md5Hex (utf8Bytes "abcdefghijklmnopqrstuvwxyzABCDEFGHIJKLMNOPQRSTUVWXYZ0123456789_abcdefghijklmnopqrstuvwxyz")
      = "bb8d3e3ca0ff61416b3f45d0e6b3181b" := by decide

/-! ## Claim C1: key-hash construction -/

/-- Claim C1 (counterexample).  The claim states that every canonical record's
`key_hash` is `RFP_Content_` + the hex MD5 of the pipe-joined, full,
untruncated, whitespace-preserving field values including `response`.  On the
code this fails at `rC1`: the column assignment itself raises (the
whitespace-removal `str.replace` is called with the string `""` as its count
argument), and the per-record hash the code computes is the MD5 of the
whitespace-stripped, truncated, underscore-joined five fields without
`response`, which differs from the hash the claim prescribes. -/
theorem C1_counterexample :
    add_rfp_keys [rC1] =
      .error "TypeError: not supported between instances of str and int"
    ∧ record_key_hash rC1 ≠ spec_key_hash rC1 :=
  ⟨rfl, by decide⟩

/-- Claim C1 (amended).  What the key-derivation code actually does: the
whole `_add_rfp_keys` call raises `TypeError` for every input (invalid count
argument to `str.replace`); the per-record hash its `key_hash` expression
denotes is `_key_from_hash` at the default `"md5"` algorithm applied to the
whitespace-stripped underscore-joined key (client, date, rfp type,
consultant, question — no response), which prefixes `RFP_Content_` to the MD5
of the UTF-8 encoding of the first 120 characters; the algorithm choice is
pluggable (md5 default, sha1, sha256) and any other name raises
`ValueError: Unsupported hash algorithm`. -/
theorem C1_key_hash_derivation (sha1H sha256H : List Nat → String)
    (rs : List Record) (r : Record) (t : String) :
    add_rfp_keys rs =
      .error "TypeError: not supported between instances of str and int"
    ∧ key_from_hash sha1H sha256H (some (removeAllWhitespace (build_key r))) "md5" =
        .ok (record_key_hash r)
    ∧ key_from_hash sha1H sha256H (some t) "md5" =
        .ok ("RFP_Content_" ++ md5Hex (utf8Bytes (pyTake t 120)))
    ∧ key_from_hash sha1H sha256H (some t) "whirlpool" =
        .error "Unsupported hash algorithm: whirlpool" :=
  ⟨rfl, rfl, rfl, rfl⟩

/-! ## Claim C2: same-question conflict resolution -/

/-- Claim C2 (code behavior at the failing input).  In `dfC2` the group of
question `a` has maximum date 20240101, yet its row dated 20230101 survives
step 2, because the filter tests membership of a row's date in the pooled set
of per-question maxima and 20230101 is the maximum of group `b`.  The
specification's own two-row example (`dfSpecPair`) does behave as claimed. -/
theorem C2_cross_group_date_leak :
    (⟨"a", "x", 20230101⟩ : DupRow) ∈ same_question_duplicate_response dfC2
    ∧ maxDateFor dfC2 "a" = 20240101
    ∧ same_question_duplicate_response dfSpecPair = [⟨"q", "r2", 20240101⟩] := by
  decide

/-! ## Claim C3: key-hash as a function of record content -/

/-- Claim C3 (counterexample).  `rC3a` and `rC3b` differ (after trimming) in
`response`, yet key derivation computes the same `key_hash` for both, because
`response` is not part of the hashed key. -/
theorem C3_counterexample :
    record_key_hash rC3a = record_key_hash rC3b
    ∧ pyStrip rC3a.response ≠ pyStrip rC3b.response := by
  decide

/-- Claim C3 (amended).  The `key_hash` of a record is determined by the
trimmed values of `client name`, `date`, `rfp type`, `consultant` and
`question` alone: two records agreeing on those five fields after trimming
receive the same `key_hash`, whatever their responses.  (The identical-fields
direction of the claim follows; the different-fields direction fails, see the
counterexample.) -/
theorem C3_key_hash_ignores_response (r1 r2 : Record)
    (hc : pyStrip r1.clientName = pyStrip r2.clientName)
    (hd : pyStrip r1.date = pyStrip r2.date)
    (ht : pyStrip r1.rfpType = pyStrip r2.rfpType)
    (hk : pyStrip r1.consultant = pyStrip r2.consultant)
    (hq : pyStrip r1.question = pyStrip r2.question) :
    record_key_hash r1 = record_key_hash r2 := by
  unfold record_key_hash build_key
  rw [hc, hd, ht, hk, hq]

/-- Witness for `C3_key_hash_ignores_response` at the two fixture records
(equal five fields, different responses). -/
theorem C3_key_hash_ignores_response_witness :
    record_key_hash rC3a = record_key_hash rC3b :=
  C3_key_hash_ignores_response rC3a rC3b rfl rfl rfl rfl rfl

/-! ## Claim C7: confirmation-phrase normalization -/

/-- Claim C7 (code behavior at the failing inputs).  Because the alternation
lists the bare `CONFIRMED` first and Python regex alternation takes the first
alternative that matches, the longer phrases are never matched whole: of the
claimed inputs only `CONFIRMED`, `confirmed` and `Yes. Confirmed.` normalize
to exactly `Confirmed`; `Confirmed via mail.`, `confirmed via blueinsights.`
and `confirmed.` keep their suffixes. -/
theorem C7_confirmation_rewrite_behavior :
    normalize_confirmation "CONFIRMED" = "Confirmed"
    ∧ normalize_confirmation "confirmed" = "Confirmed"
    ∧ normalize_confirmation "Yes. Confirmed." = "Confirmed"
    ∧ normalize_confirmation "Confirmed via mail." = "Confirmed via mail."
    ∧ normalize_confirmation "confirmed via blueinsights."
        = "Confirmed via blueinsights."
    ∧ normalize_confirmation "confirmed." = "Confirmed."
    ∧ normalize_confirmation "Confirmed via mail." ≠ "Confirmed" := by
  decide

/-! ## Claim C8: response-column requirement -/

/-- Claim C8 (counterexample).  On a table with neither a `response` nor a
`fixed answer` column the cleaner returns the empty `DataFrame`; no error is
signalled to the caller, where the claim requires a `SchemaError`. -/
theorem C8_counterexample :
    clean_data_response_resolution tC8 = ⟨[], []⟩
    ∧ spec_response_resolution tC8 =
        .error "SchemaError: no response-equivalent column" :=
  ⟨rfl, rfl⟩

/-- Claim C8 (amended).  The normalizer uses a `response` column when one is
present, otherwise falls back to a `fixed answer` column renamed to
`response`; in both cases it keeps exactly the rows with a present, non-blank
response.  When neither column exists it returns an empty table (the error is
only logged) instead of signalling a `SchemaError` to the caller. -/
theorem C8_response_column_resolution (t : RawTable) :
    ((t.cols.map (fun c => pyLower (pyStrip c))).contains "response" = true →
      clean_data_response_resolution t =
        dropBlankResponses ⟨t.cols.map (fun c => pyLower (pyStrip c)), t.rows⟩)
    ∧ ((t.cols.map (fun c => pyLower (pyStrip c))).contains "response" = false →
       (t.cols.map (fun c => pyLower (pyStrip c))).contains "fixed answer" = true →
      clean_data_response_resolution t =
        dropBlankResponses
          ⟨(t.cols.map (fun c => pyLower (pyStrip c))).map
              (fun c => if c = "fixed answer" then "response" else c), t.rows⟩)
    ∧ ((t.cols.map (fun c => pyLower (pyStrip c))).contains "response" = false →
       (t.cols.map (fun c => pyLower (pyStrip c))).contains "fixed answer" = false →
      clean_data_response_resolution t = ⟨[], []⟩)
    ∧ (∀ row ∈ (clean_data_response_resolution t).rows,
        ∃ v, cellOf (clean_data_response_resolution t).cols row "response" = some v
          ∧ pyStrip v ≠ "") := by
  refine ⟨fun h1 => ?_, fun h1 h2 => ?_, fun h1 h2 => ?_, fun row hrow => ?_⟩
  · simp only [clean_data_response_resolution]
    rw [h1, if_pos rfl]
  · simp only [clean_data_response_resolution]
    rw [h1, if_neg Bool.false_ne_true, h2, if_pos rfl]
  · simp only [clean_data_response_resolution]
    rw [h1, if_neg Bool.false_ne_true, h2, if_neg Bool.false_ne_true]
  · simp only [clean_data_response_resolution] at hrow ⊢
    cases hb1 : (t.cols.map (fun c => pyLower (pyStrip c))).contains "response" with
    | true =>
      rw [hb1] at hrow
      rw [if_pos rfl] at hrow ⊢
      simp only [dropBlankResponses] at hrow ⊢
      obtain ⟨hmem, hkeep⟩ := List.mem_filter.mp hrow
      cases hc : cellOf (t.cols.map (fun c => pyLower (pyStrip c))) row "response" with
      | none => rw [hc] at hkeep; exact absurd hkeep (by simp)
      | some v =>
        rw [hc] at hkeep
        simp only [decide_eq_true_eq] at hkeep
        exact ⟨v, rfl, hkeep⟩
    | false =>
      rw [hb1] at hrow
      rw [if_neg Bool.false_ne_true] at hrow ⊢
      cases hb2 : (t.cols.map (fun c => pyLower (pyStrip c))).contains "fixed answer" with
      | true =>
        rw [hb2] at hrow
        rw [if_pos rfl] at hrow ⊢
        simp only [dropBlankResponses] at hrow ⊢
        obtain ⟨hmem, hkeep⟩ := List.mem_filter.mp hrow
        cases hc : cellOf ((t.cols.map (fun c => pyLower (pyStrip c))).map
            (fun c => if c = "fixed answer" then "response" else c)) row "response" with
        | none => rw [hc] at hkeep; exact absurd hkeep (by simp)
        | some v =>
          rw [hc] at hkeep
          simp only [decide_eq_true_eq] at hkeep
          exact ⟨v, rfl, hkeep⟩
      | false =>
        rw [hb2] at hrow
        rw [if_neg Bool.false_ne_true] at hrow
        exact absurd hrow (by simp)

/-! ## Synchronizer lemmas -/

/-- A name with the managed extension is non-empty. -/
theorem ne_empty_of_isDocx {a : String} (h : isDocx a = true) : a ≠ "" := by
  intro he
  subst he
  exact absurd h (by decide)

/-- Membership in the `.docx` blob names. -/
theorem mem_blobDocxNames {blobs : List String} {a : String} :
    a ∈ blobDocxNames blobs ↔ a ∈ blobs ∧ isDocx a = true := by
  simp [blobDocxNames, List.mem_filter]

/-- Membership in the pre-upload name listing. -/
theorem mem_existingNames {items : List SPItem} {a : String} :
    a ∈ existingNames items ↔ ∃ it ∈ items, it.name = a ∧ it.name ≠ "" := by
  simp only [existingNames, List.mem_map, List.mem_filter, bne_iff_ne, ne_eq]
  constructor
  · rintro ⟨it, ⟨hmem, hne⟩, rfl⟩
    exact ⟨it, hmem, rfl, hne⟩
  · rintro ⟨it, hmem, rfl, hne⟩
    exact ⟨it, ⟨hmem, hne⟩, rfl⟩

/-- An item whose name matches some `.docx` blob is never deleted. -/
theorem isDeleted_eq_false_of_matched {blobs : List String} {it : SPItem}
    (h : it.name ∈ blobDocxNames blobs) : isDeleted blobs it = false := by
  simp only [isDeleted, isOrphan, Bool.and_eq_false_iff]
  left
  right
  simp [h]

/-! ## Claim C4: mirror convergence -/

/-- Claim C4.  After one synchronizer run in which every per-item call
succeeds and no concurrent writer interferes (the setting of the model), and
whose starting listing is well-formed (every item carries a non-empty id, as
Graph listings do), the set of external `.docx` names equals the set of
`.docx` names of the document store: a name with the managed extension occurs
in the final listing exactly when it is a `.docx` blob name. -/
theorem C4_sync_convergence (mkId mkUrl : String → String) (blobs : List String)
    (items : List SPItem) (hid : ∀ it ∈ items, it.id ≠ "") (a : String) :
    (a ∈ (runSync mkId mkUrl blobs items).final.map SPItem.name ∧ isDocx a = true)
      ↔ a ∈ blobDocxNames blobs := by
  have hfinal : (runSync mkId mkUrl blobs items).final
      = afterDeleteItems mkId mkUrl blobs items := rfl
  rw [hfinal]
  constructor
  · rintro ⟨ha, hdocx⟩
    rw [List.mem_map] at ha
    obtain ⟨it, hit, rfl⟩ := ha
    rw [afterDeleteItems, List.mem_filter, Bool.not_eq_true'] at hit
    obtain ⟨hmem, hkeep⟩ := hit
    rw [afterUploadItems, List.mem_append] at hmem
    rcases hmem with hmem | hmem
    · have hid' := hid it hmem
      have hne : it.name ≠ "" := ne_empty_of_isDocx hdocx
      simp only [isDeleted, isOrphan, Bool.and_eq_false_iff, bne_iff_ne, ne_eq,
        Bool.not_eq_false, decide_eq_false_iff_not, not_not] at hkeep
      rcases hkeep with ((h1 | h2) | h3) | h4
      · exact absurd h1 (by simpa using hne)
      · exact absurd hdocx (by simp [h2])
      · simpa using h3
      · exact absurd h4 (by simpa using hid')
    · rw [List.mem_map] at hmem
      obtain ⟨n, hn, heq⟩ := hmem
      rw [newBlobNames, List.mem_filter, Bool.and_eq_true] at hn
      obtain ⟨hnb, hcond, _⟩ := hn
      rw [mem_blobDocxNames]
      cases heq
      exact ⟨hnb, hcond⟩
  · intro hb
    have hdocx := (mem_blobDocxNames.mp hb).2
    have hblob := (mem_blobDocxNames.mp hb).1
    refine ⟨?_, hdocx⟩
    rw [List.mem_map]
    by_cases hex : a ∈ existingNames items
    · obtain ⟨it, hmem, hname, hne⟩ := mem_existingNames.mp hex
      refine ⟨it, ?_, hname⟩
      rw [afterDeleteItems, List.mem_filter, Bool.not_eq_true']
      refine ⟨by rw [afterUploadItems, List.mem_append]; exact Or.inl hmem, ?_⟩
      exact isDeleted_eq_false_of_matched (by rw [hname]; exact hb)
    · have hnew : a ∈ newBlobNames blobs items := by
        rw [newBlobNames, List.mem_filter, Bool.and_eq_true]
        exact ⟨hblob, hdocx, by simpa using hex⟩
      refine ⟨⟨mkId a, a, mkUrl a⟩, ?_, rfl⟩
      rw [afterDeleteItems, List.mem_filter, Bool.not_eq_true']
      constructor
      · rw [afterUploadItems, List.mem_append]
        right
        rw [List.mem_map]
        exact ⟨a, hnew, rfl⟩
      · exact isDeleted_eq_false_of_matched hb

/-- Witness for `C4_sync_convergence` at the specification's example: source
names A, B, C and external names B, C, D; A is uploaded, D is deleted, and
the external `.docx` names become exactly A, B, C. -/
theorem C4_sync_convergence_witness :
    (∀ it ∈ itemsC4, it.id ≠ "")
    ∧ (("A.docx" ∈ (runSync (fun n => "id-" ++ n) (fun n => "u-" ++ n)
          blobsC4 itemsC4).final.map SPItem.name ∧ isDocx "A.docx" = true)
        ↔ "A.docx" ∈ blobDocxNames blobsC4)
    ∧ (runSync (fun n => "id-" ++ n) (fun n => "u-" ++ n) blobsC4 itemsC4).uploads
        = ["A.docx"]
    ∧ (runSync (fun n => "id-" ++ n) (fun n => "u-" ++ n) blobsC4
        itemsC4).deletions.map SPItem.name = ["D.docx"]
    ∧ (runSync (fun n => "id-" ++ n) (fun n => "u-" ++ n) blobsC4
        itemsC4).final.map SPItem.name = ["B.docx", "C.docx", "A.docx"] :=
  ⟨by decide,
   C4_sync_convergence (fun n => "id-" ++ n) (fun n => "u-" ++ n) blobsC4 itemsC4
     (by decide) "A.docx",
   by decide, by decide, by decide⟩

/-! ## Claim C6: idempotence of the synchronizer -/

/-- Every `.docx` blob name appears in the listing left by a synchronizer
run. -/
theorem blobDocx_subset_final_names (mkId mkUrl : String → String)
    (blobs : List String) (items : List SPItem) :
    ∀ b ∈ blobDocxNames blobs,
      b ∈ existingNames (afterDeleteItems mkId mkUrl blobs items) := by
  intro b hb
  have hdocx := (mem_blobDocxNames.mp hb).2
  have hne := ne_empty_of_isDocx hdocx
  rw [mem_existingNames]
  by_cases hex : b ∈ existingNames items
  · obtain ⟨it, hmem, hname, hne'⟩ := mem_existingNames.mp hex
    refine ⟨it, ?_, hname, hne'⟩
    rw [afterDeleteItems, List.mem_filter, Bool.not_eq_true']
    exact ⟨by rw [afterUploadItems, List.mem_append]; exact Or.inl hmem,
           isDeleted_eq_false_of_matched (by rw [hname]; exact hb)⟩
  · have hnew : b ∈ newBlobNames blobs items := by
      rw [newBlobNames, List.mem_filter, Bool.and_eq_true]
      exact ⟨(mem_blobDocxNames.mp hb).1, hdocx, by simpa using hex⟩
    refine ⟨⟨mkId b, b, mkUrl b⟩, ?_, rfl, hne⟩
    rw [afterDeleteItems, List.mem_filter, Bool.not_eq_true']
    refine ⟨?_, isDeleted_eq_false_of_matched hb⟩
    rw [afterUploadItems, List.mem_append]
    right
    rw [List.mem_map]
    exact ⟨b, hnew, rfl⟩

/-- Claim C6.  Running the synchronizer a second time over the listing the
first run left, with an unchanged document store (and whatever ids/urls the
platform assigns in either run), performs zero uploads and zero deletes,
leaves the listing unchanged, and publishes a mapping (and duplicate warning)
identical to the first run's. -/
theorem C6_sync_idempotent (mkId1 mkUrl1 mkId2 mkUrl2 : String → String)
    (blobs : List String) (items : List SPItem) :
    (runSync mkId2 mkUrl2 blobs (runSync mkId1 mkUrl1 blobs items).final).uploads = []
    ∧ (runSync mkId2 mkUrl2 blobs (runSync mkId1 mkUrl1 blobs items).final).deletions = []
    ∧ (runSync mkId2 mkUrl2 blobs (runSync mkId1 mkUrl1 blobs items).final).final
        = (runSync mkId1 mkUrl1 blobs items).final
    ∧ (runSync mkId2 mkUrl2 blobs (runSync mkId1 mkUrl1 blobs items).final).mapping
        = (runSync mkId1 mkUrl1 blobs items).mapping
    ∧ (runSync mkId2 mkUrl2 blobs (runSync mkId1 mkUrl1 blobs items).final).dupWarning
        = (runSync mkId1 mkUrl1 blobs items).dupWarning := by
  have hkeepF : ∀ it ∈ (runSync mkId1 mkUrl1 blobs items).final,
      isDeleted blobs it = false := by
    intro it hit
    have hit' : it ∈ (afterUploadItems mkId1 mkUrl1 blobs items).filter
        (fun x => !isDeleted blobs x) := hit
    have := (List.mem_filter.mp hit').2
    simpa using this
  have hup : newBlobNames blobs (runSync mkId1 mkUrl1 blobs items).final = [] := by
    rw [newBlobNames, List.filter_eq_nil_iff]
    intro b hbmem
    simp only [Bool.and_eq_true, not_and]
    intro hdocx
    have hmem : b ∈ existingNames (runSync mkId1 mkUrl1 blobs items).final :=
      blobDocx_subset_final_names mkId1 mkUrl1 blobs items b
        (mem_blobDocxNames.mpr ⟨hbmem, hdocx⟩)
    simp [hmem]
  have hau : afterUploadItems mkId2 mkUrl2 blobs (runSync mkId1 mkUrl1 blobs items).final
      = (runSync mkId1 mkUrl1 blobs items).final := by
    rw [afterUploadItems, hup]
    simp
  have hdel : (afterUploadItems mkId2 mkUrl2 blobs
      (runSync mkId1 mkUrl1 blobs items).final).filter (isDeleted blobs) = [] := by
    rw [hau, List.filter_eq_nil_iff]
    intro it hit
    simp [hkeepF it hit]
  have hfin : afterDeleteItems mkId2 mkUrl2 blobs
      (runSync mkId1 mkUrl1 blobs items).final
      = (runSync mkId1 mkUrl1 blobs items).final := by
    rw [afterDeleteItems, hau, List.filter_eq_self]
    intro it hit
    simp [hkeepF it hit]
  refine ⟨hup, hdel, hfin, ?_, ?_⟩
  · show (publishMapping (afterDeleteItems mkId2 mkUrl2 blobs
        (runSync mkId1 mkUrl1 blobs items).final)).1 = _
    rw [hfin]
    rfl
  · show (publishMapping (afterDeleteItems mkId2 mkUrl2 blobs
        (runSync mkId1 mkUrl1 blobs items).final)).2 = _
    rw [hfin]
    rfl

/-! ## Claim C9: mapping uniqueness and duplicate reporting -/

/-- Rows kept by the keep-last deduplication come from the input. -/
theorem keepLast_subset (l : List (String × String)) :
    ∀ p ∈ keepLast l, p ∈ l := by
  induction l with
  | nil => simp [keepLast]
  | cons r rest ih =>
    intro p hp
    by_cases hany : rest.any (fun q => q.1 == r.1) = true
    · simp only [keepLast, if_pos hany] at hp
      exact List.mem_cons_of_mem _ (ih p hp)
    · simp only [keepLast, if_neg hany] at hp
      rcases List.mem_cons.mp hp with rfl | hp'
      · exact List.mem_cons_self _ _
      · exact List.mem_cons_of_mem _ (ih p hp')

/-- Auxiliary: dropping the head does not change the last element of a
non-empty tail. -/
theorem getLast?_cons_of_ne_nil {α : Type} (a : α) {l : List α} (h : l ≠ []) :
    (a :: l).getLast? = l.getLast? := by
  cases l with
  | nil => exact absurd rfl h
  | cons b t => exact List.getLast?_cons_cons

/-- The keep-last deduplication leaves pairwise-distinct file names. -/
theorem keepLast_names_nodup (l : List (String × String)) :
    ((keepLast l).map Prod.fst).Nodup := by
  induction l with
  | nil => simp [keepLast]
  | cons r rest ih =>
    by_cases hany : rest.any (fun q => q.1 == r.1) = true
    · simpa only [keepLast, if_pos hany] using ih
    · simp only [keepLast, if_neg hany, List.map_cons, List.nodup_cons]
      refine ⟨?_, ih⟩
      intro hcontra
      rw [List.mem_map] at hcontra
      obtain ⟨q, hq, hq1⟩ := hcontra
      apply hany
      exact List.any_eq_true.mpr
        ⟨q, keepLast_subset _ _ hq, by rw [beq_iff_eq]; exact hq1⟩

/-- Each kept row is the last-observed row with its file name. -/
theorem keepLast_last_wins (l : List (String × String)) :
    ∀ p ∈ keepLast l, (l.filter (fun q => q.1 == p.1)).getLast? = some p := by
  induction l with
  | nil => simp [keepLast]
  | cons r rest ih =>
    intro p hp
    by_cases hany : rest.any (fun q => q.1 == r.1) = true
    · simp only [keepLast, if_pos hany] at hp
      have hlast := ih p hp
      rw [List.filter_cons]
      by_cases hr : (r.1 == p.1) = true
      · rw [if_pos hr]
        obtain ⟨q, hq, hqr⟩ := List.any_eq_true.mp hany
        have hq1 : (q.1 == p.1) = true := by
          rw [beq_iff_eq] at hqr hr ⊢
          rw [hqr, hr]
        have hne : rest.filter (fun q => q.1 == p.1) ≠ [] :=
          List.ne_nil_of_mem (List.mem_filter.mpr ⟨hq, hq1⟩)
        rw [getLast?_cons_of_ne_nil r hne]
        exact hlast
      · rw [if_neg hr]
        exact hlast
    · simp only [keepLast, if_neg hany] at hp
      rcases List.mem_cons.mp hp with rfl | hp'
      · rw [List.filter_cons, if_pos (by rw [beq_iff_eq])]
        have hany' : rest.any (fun q => q.1 == p.1) = false := by
          rwa [Bool.not_eq_true] at hany
        have hnil : rest.filter (fun q => q.1 == p.1) = [] := by
          rw [List.filter_eq_nil_iff]
          exact List.any_eq_false.mp hany'
        rw [hnil]
        rfl
      · have hlast := ih p hp'
        rw [List.filter_cons]
        by_cases hr : (r.1 == p.1) = true
        · exfalso
          apply hany
          refine List.any_eq_true.mpr ⟨p, keepLast_subset _ _ hp', ?_⟩
          rw [beq_iff_eq] at hr ⊢
          exact hr.symm
        · rw [if_neg hr]
          exact hlast

/-- When no file name repeats, keep-last keeps everything. -/
theorem keepLast_eq_self (l : List (String × String))
    (h : ∀ n, (l.map Prod.fst).count n ≤ 1) : keepLast l = l := by
  induction l with
  | nil => rfl
  | cons r rest ih =>
    have hany : rest.any (fun q => q.1 == r.1) = false := by
      rw [List.any_eq_false]
      intro q hq hpq
      have hcount : 2 ≤ ((r :: rest).map Prod.fst).count r.1 := by
        rw [List.map_cons, List.count_cons_self]
        have : 0 < (rest.map Prod.fst).count r.1 := by
          rw [List.count_pos_iff]
          rw [List.mem_map]
          exact ⟨q, hq, by simpa using hpq⟩
        omega
      exact absurd (h r.1) (by omega)
    have hstep : keepLast (r :: rest) = r :: keepLast rest := by
      simp only [keepLast]
      rw [if_neg (by rw [hany]; exact Bool.false_ne_true)]
    rw [hstep]
    congr 1
    apply ih
    intro n
    have := h n
    rw [List.map_cons, List.count_cons] at this
    omega

/-- Membership through the insertion sort. -/
theorem mem_insertStr {x s : String} :
    ∀ {l : List String}, x ∈ insertStr s l ↔ x = s ∨ x ∈ l := by
  intro l
  induction l with
  | nil => simp [insertStr]
  | cons t ts ih =>
    simp only [insertStr]
    by_cases h : strLe s t = true
    · rw [if_pos h]
      simp [List.mem_cons]
    · rw [if_neg h]
      simp only [List.mem_cons, ih]
      tauto

/-- Sorting preserves membership. -/
theorem mem_sortStrs {x : String} {l : List String} :
    x ∈ sortStrs l ↔ x ∈ l := by
  induction l with
  | nil => simp [sortStrs]
  | cons t ts ih =>
    show x ∈ insertStr t (sortStrs ts) ↔ _
    rw [mem_insertStr, ih]
    simp [List.mem_cons]

/-- Claim C9.  The published mapping is unique by `file_name`; every kept row
is the last-observed row with that name; a duplicated name forces the warning
(with at most 10 example names) — rows are never dropped silently; and the
empty listing still publishes the (empty) mapping. -/
theorem C9_mapping_publish (items : List SPItem) :
    ((publishMapping items).1.map Prod.fst).Nodup
    ∧ (∀ p ∈ (publishMapping items).1,
        ((mappingRows items).filter (fun q => q.1 == p.1)).getLast? = some p)
    ∧ ((∃ n, 2 ≤ ((mappingRows items).map Prod.fst).count n) →
        ∃ exs, (publishMapping items).2 = some exs ∧ exs.length ≤ 10)
    ∧ ((publishMapping items).1 ≠ mappingRows items →
        (publishMapping items).2.isSome = true)
    ∧ publishMapping [] = ([], none) := by
  refine ⟨keepLast_names_nodup _, keepLast_last_wins _, ?_, ?_, by decide⟩
  · rintro ⟨n, hn⟩
    have hmemn : n ∈ (mappingRows items).map Prod.fst := by
      rw [← List.count_pos_iff]
      omega
    have hdup : n ∈ duplicatedNames (mappingRows items) := by
      rw [duplicatedNames, List.mem_dedup, mem_sortStrs, List.mem_filter]
      exact ⟨hmemn, by simpa using hn⟩
    refine ⟨(duplicatedNames (mappingRows items)).take 10, ?_, List.length_take_le _ _⟩
    show dupWarningOf (mappingRows items) = _
    rw [dupWarningOf, if_neg ?_]
    simp only [List.isEmpty_iff]
    exact List.ne_nil_of_mem hdup
  · intro hne
    by_contra hwarn
    have hnone : (publishMapping items).2 = none := by
      cases hw : (publishMapping items).2 with
      | none => rfl
      | some exs => rw [hw] at hwarn; exact absurd rfl hwarn
    have hempty : duplicatedNames (mappingRows items) = [] := by
      have : dupWarningOf (mappingRows items) = none := hnone
      rw [dupWarningOf] at this
      by_cases hi : (duplicatedNames (mappingRows items)).isEmpty = true
      · exact List.isEmpty_iff.mp hi
      · rw [if_neg hi] at this
        exact absurd this (by simp)
    have hcount : ∀ n, ((mappingRows items).map Prod.fst).count n ≤ 1 := by
      intro n
      by_contra hc
      have h2 : 2 ≤ ((mappingRows items).map Prod.fst).count n := by omega
      have hmemn : n ∈ (mappingRows items).map Prod.fst := by
        rw [← List.count_pos_iff]
        omega
      have : n ∈ duplicatedNames (mappingRows items) := by
        rw [duplicatedNames, List.mem_dedup, mem_sortStrs, List.mem_filter]
        exact ⟨hmemn, by simpa using h2⟩
      rw [hempty] at this
      exact absurd this (List.not_mem_nil n)
    exact hne (keepLast_eq_self _ hcount)

/-- Witness for `C9_mapping_publish` at a listing with a duplicated name:
the warning is raised with the single duplicated name as its example, and the
published mapping keeps the later-observed url. -/
theorem C9_mapping_publish_witness :
    (∃ n, 2 ≤ ((mappingRows itemsC9).map Prod.fst).count n)
    ∧ (∃ exs, (publishMapping itemsC9).2 = some exs ∧ exs.length ≤ 10)
    ∧ publishMapping itemsC9 = ([("x.docx", "u2"), ("y.docx", "u3")], some ["x.docx"]) :=
  ⟨⟨"x.docx", by decide⟩,
   (C9_mapping_publish itemsC9).2.2.1 ⟨"x.docx", by decide⟩,
   by decide⟩

/-! ## Claim C5: materialized document names and content -/

/-- Claim C5 (counterexample).  The single row of `tC5` (whose record is
`recC5`) is materialized under the file name built from the first column's
value (`RFP_Content_Library_Acme.docx`), which is neither the code's
`key_hash` nor the specification's content-addressed `key_hash` plus the
managed extension. -/
theorem C5_counterexample :
    materializeDocs "RFP_content_library_20240301.xlsx" tC5 =
      .ok [("RFP_Content_Library_Acme.docx",
            ["Source File Name: RFP_content_library_20240301.xlsx",
             "Client Name: Acme", "RFP Type: Annual", "Consultant: Jane",
             "Date: 2024-03-01", "Question: Q?", "Response: R."])]
    ∧ "RFP_Content_Library_Acme.docx" ≠ record_key_hash recC5 ++ ".docx"
    ∧ "RFP_Content_Library_Acme.docx" ≠ spec_key_hash recC5 ++ ".docx" :=
  ⟨rfl, by decide, by decide⟩

/-- The render loop of `create_docx_content`, started from any accumulator,
appends exactly the present-and-non-blank labeled fields. -/
theorem render_foldl (row : MatRow) (fields : List (String × String))
    (acc : List String) :
    fields.foldl
      (fun acc lk =>
        match rowGet row lk.2 with
        | some v => if v ≠ "" then acc ++ [lk.1 ++ ": " ++ v] else acc
        | none => acc)
      acc
    = acc ++ fields.filterMap (fun lk =>
        match rowGet row lk.2 with
        | some v => if v = "" then none else some (lk.1 ++ ": " ++ v)
        | none => none) := by
  induction fields generalizing acc with
  | nil => simp
  | cons lk rest ih =>
    simp only [List.foldl_cons, List.filterMap_cons]
    cases hv : rowGet row lk.2 with
    | none => rw [ih]
    | some v =>
      by_cases hve : v = ""
      · subst hve
        simp only [ne_eq, not_true_eq_false, if_false, ite_self]
        rw [ih]
        simp
      · simp only [ne_eq, hve, not_false_eq_true, if_true, if_neg hve]
        rw [ih]
        simp

/-- Claim C5 (amended).  Every document the materializer produces is stored
under `RFP_Content_Library_` + the row's first-column value + `.docx` — the
name is built from the frame's first column, not from the record's
`key_hash`; and its content is the `Source File Name` paragraph followed by
exactly the labeled fields (`Client Name`, `RFP Type`, `Consultant`, `Date`,
`Question`, the title-cased response label, `SME`) whose cell is present and
non-blank, each rendered as `label: value`. -/
theorem C5_materializer_naming_and_rendering (latest : String) (t : MatTable)
    (docs : List (String × List String)) (row : MatRow) (rcol : String) :
    (materializeDocs latest t = .ok docs →
      ∀ nm content, (nm, content) ∈ docs →
        ∃ r ∈ t.rows, ∃ refVal,
          rowGet r (t.cols.getD 0 "") = some refVal ∧ pyStrip refVal ≠ "" ∧
          nm = "RFP_Content_Library_" ++ refVal ++ ".docx")
    ∧ create_docx_content latest row rcol =
        ("Source File Name: " ++ latest) ::
          (docFields rcol).filterMap (fun lk =>
            match rowGet row lk.2 with
            | some v => if v = "" then none else some (lk.1 ++ ": " ++ v)
            | none => none)
    ∧ (∀ label key, (label, key) ∈ docFields rcol →
        ∀ v, rowGet row key = some v → v ≠ "" →
          (label ++ ": " ++ v) ∈ create_docx_content latest row rcol) := by
  have hrender : create_docx_content latest row rcol =
      ("Source File Name: " ++ latest) ::
        (docFields rcol).filterMap (fun lk =>
          match rowGet row lk.2 with
          | some v => if v = "" then none else some (lk.1 ++ ": " ++ v)
          | none => none) := by
    rw [create_docx_content, render_foldl]
    rfl
  refine ⟨?_, hrender, ?_⟩
  · intro h nm content hmem
    unfold materializeDocs at h
    cases hdet : detectResponseCol t.cols with
    | none => rw [hdet] at h; exact absurd h (by simp)
    | some rcol' =>
      rw [hdet] at h
      have hdocs : docs = t.rows.filterMap (fun r =>
          match rowGet r (t.cols.getD 0 "") with
          | none => none
          | some refVal =>
            if pyStrip refVal = "" then none
            else some (docxFileNameOf refVal,
                       create_docx_content latest r rcol')) := by
        cases h
        rfl
      rw [hdocs] at hmem
      obtain ⟨r, hr, hf⟩ := List.mem_filterMap.mp hmem
      refine ⟨r, hr, ?_⟩
      cases hg : rowGet r (t.cols.getD 0 "") with
      | none => rw [hg] at hf; exact absurd hf (by simp)
      | some refVal =>
        rw [hg] at hf
        have hf' : (if pyStrip refVal = "" then none
            else some (docxFileNameOf refVal,
                       create_docx_content latest r rcol')) = some (nm, content) := hf
        by_cases hsv : pyStrip refVal = ""
        · rw [if_pos hsv] at hf'
          exact absurd hf' (by simp)
        · rw [if_neg hsv] at hf'
          refine ⟨refVal, rfl, hsv, ?_⟩
          have : nm = docxFileNameOf refVal :=
            congrArg Prod.fst (Option.some.inj hf').symm
          rw [this]
          rfl
  · intro label key hlk v hv hvne
    rw [hrender]
    refine List.mem_cons_of_mem _ ?_
    rw [List.mem_filterMap]
    refine ⟨(label, key), hlk, ?_⟩
    rw [hv]
    simp [hvne]

/-- Witness for `C5_materializer_naming_and_rendering` at the fixture table:
the produced name comes from the first column (`Acme`), and the present
non-blank field `client name` is rendered. -/
theorem C5_materializer_naming_and_rendering_witness :
    (∃ r ∈ tC5.rows, ∃ refVal,
        rowGet r (tC5.cols.getD 0 "") = some refVal ∧ pyStrip refVal ≠ "" ∧
        "RFP_Content_Library_Acme.docx" =
          "RFP_Content_Library_" ++ refVal ++ ".docx")
    ∧ "Client Name: Acme" ∈
        create_docx_content "RFP_content_library_20240301.xlsx"
          (tC5.rows.getD 0 []) "response" :=
  ⟨(C5_materializer_naming_and_rendering "RFP_content_library_20240301.xlsx"
      tC5 [("RFP_Content_Library_Acme.docx",
            ["Source File Name: RFP_content_library_20240301.xlsx",
             "Client Name: Acme", "RFP Type: Annual", "Consultant: Jane",
             "Date: 2024-03-01", "Question: Q?", "Response: R."])]
      [] "response").1 rfl "RFP_Content_Library_Acme.docx"
      ["Source File Name: RFP_content_library_20240301.xlsx",
       "Client Name: Acme", "RFP Type: Annual", "Consultant: Jane",
       "Date: 2024-03-01", "Question: Q?", "Response: R."] (by decide),
   (C5_materializer_naming_and_rendering "RFP_content_library_20240301.xlsx"
      tC5 [] (tC5.rows.getD 0 []) "response").2.2 "Client Name" "client name"
      (by decide) "Acme" (by decide) (by decide)⟩

/-! ## Claim C10: the output container is wiped before any creation -/

/-- Claim C10.  Every document-library run wipes the output container as its
first operation (so no document of the previous run survives, even for
unchanged records: the final contents never depend on the previous contents);
and when no valid `RFP_content_library_{YYYYMMDD}.xlsx` source exists the
wipe still happens and the subsequent read aborts the run, leaving the
output container empty. -/
theorem C10_wipe_semantics (inNames : List String) (t : MatTable)
    (oldStore : List String) :
    (docLibTrace inNames t).head? = some .deleteAll
    ∧ docLibFinal inNames t oldStore = docLibFinal inNames t []
    ∧ (get_latest_rfp_content_library_blob inNames = none →
        docLibTrace inNames t = [.deleteAll, .abort]
        ∧ docLibFinal inNames t oldStore = []) := by
  have htr : ∃ tail, docLibTrace inNames t = .deleteAll :: tail := by
    cases hg : get_latest_rfp_content_library_blob inNames with
    | none => exact ⟨[.abort], by simp [docLibTrace, hg]⟩
    | some latest =>
      cases hm : materializeDocs latest t with
      | error e => exact ⟨[.abort], by simp [docLibTrace, hg, hm]⟩
      | ok docs =>
        exact ⟨docs.map (fun d => .create d.1), by simp [docLibTrace, hg, hm]⟩
  obtain ⟨tail, htail⟩ := htr
  refine ⟨by rw [htail]; rfl, ?_, fun hnone => ?_⟩
  · rw [docLibFinal, docLibFinal, htail]
    rfl
  · have htr2 : docLibTrace inNames t = [.deleteAll, .abort] := by
      unfold docLibTrace
      rw [hnone]
    exact ⟨htr2, by rw [docLibFinal, htr2]; rfl⟩

/-- Witness for `C10_wipe_semantics`: an input container with no valid
library file (one name even matches the prefix and suffix but has an invalid
date part) still yields the wipe, and a non-empty previous output container
ends empty. -/
theorem C10_wipe_semantics_witness :
    get_latest_rfp_content_library_blob inNamesC10 = none
    ∧ docLibFinal inNamesC10 tC10 ["RFP_Content_Library_old.docx"] = [] :=
  ⟨by decide,
   ((C10_wipe_semantics inNamesC10 tC10 ["RFP_Content_Library_old.docx"]).2.2
     (by decide)).2⟩

/-- Witness for `C8_response_column_resolution` at the fixture table with
neither response-equivalent column: the cleaner returns the empty table. -/
theorem C8_response_column_resolution_witness :
    (tC8.cols.map (fun c => pyLower (pyStrip c))).contains "response" = false
    ∧ (tC8.cols.map (fun c => pyLower (pyStrip c))).contains "fixed answer" = false
    ∧ clean_data_response_resolution tC8 = ⟨[], []⟩ :=
  ⟨by decide, by decide,
   (C8_response_column_resolution tC8).2.2.1 (by decide) (by decide)⟩
